import Mathlib

/-!
Shallow embedding of the PHPxCODER/ocr-frontend repository (TypeScript/React
front-end for a valve-detection service), covering the components the
specification makes claims about:

* `src/src/components/ProcessingStages.tsx` — status-to-stage mapping and
  overall-progress computation (namespace `ProcessingStages`);
* the job-processing page variant with cancellation support
  (`src/unnamed/part_006`, namespace `JobPage`);
* the older job-processing page variant (`src/unnamed/part_005`,
  namespace `JobPageV1`);
* the single-page variant (`src/src/app/page.tsx`, namespace `HomeV1`);
* `DownloadsSection` CSV generation (`src/unnamed/part_002`, namespace
  `DownloadsSection`).

TypeScript enum values are string literals at runtime (the `JobStatus` enum
is a string enum), so statuses are modelled as `String`; this also makes the
`default` branch of the `switch` statements reachable, exactly as in the
running JavaScript where the backend may send a value outside the enum.
Progress values are modelled as `Nat` (the source only ever assigns the
literals 0, 25, 50, 75, 100). `Math.round` on a non-negative rational is
`round : ℚ → ℤ` (both round half up). JavaScript exceptions are modelled
with `Except String`.
-/

namespace ProcessingStages

/-- One entry of the `ProcessingStage[]` array of
`src/src/components/ProcessingStages.tsx` (interface `ProcessingStage`).
The `status` field ranges over the string-literal union
`"pending" | "active" | "completed" | "error" | "cancelled"`. -/
structure ProcessingStage where
  id : String
  title : String
  description : String
  status : String
  progress : Nat
deriving Repr, DecidableEq

/-- The fixed stage array built at the top of `getProcessingStages`
(lines 33–62 of `ProcessingStages.tsx`). -/
def initialStages : List ProcessingStage :=
  [ { id := "upload", title := "PDF Upload",
      description := "File uploaded and validated successfully",
      status := "completed", progress := 100 },
    { id := "processing", title := "PDF Processing",
      description := "Analyzing PDF structure and extracting pages",
      status := "pending", progress := 0 },
    { id := "detection", title := "Valve Detection",
      description := "AI models detecting and classifying valves",
      status := "pending", progress := 0 },
    { id := "counting", title := "Counting & Analysis",
      description := "Counting valves by type and generating reports",
      status := "pending", progress := 0 } ]

/-- The in-place assignment `stages[i] = f(stages[i])` used by the
`switch` branches: out-of-range indices leave the array unchanged. -/
def setStageAt (stages : List ProcessingStage) (i : Nat)
    (f : ProcessingStage → ProcessingStage) : List ProcessingStage :=
  match stages.get? i with
  | some s => stages.set i (f s)
  | none => stages

/-- `getProcessingStages` of `src/src/components/ProcessingStages.tsx`
(lines 32–113): builds the fixed four-stage array, then mutates it by a
`switch` on the current status.  The `cancelled` branch iterates over
`stages.slice(1)` and turns `active` stages into `cancelled` (progress
kept) and `pending` stages into `cancelled` with progress 0. -/
def getProcessingStages (currentStatus : String) : List ProcessingStage :=
  let stages := initialStages
  if currentStatus = "pending" then
    setStageAt stages 1 (fun s => { s with status := "active", progress := 25 })
  else if currentStatus = "processing" then
    setStageAt stages 1 (fun s => { s with status := "active", progress := 75 })
  else if currentStatus = "pdf_processed" then
    setStageAt (setStageAt stages 1
        (fun s => { s with status := "completed", progress := 100 })) 2
      (fun s => { s with status := "active", progress := 50 })
  else if currentStatus = "counting" then
    setStageAt (setStageAt (setStageAt stages 1
          (fun s => { s with status := "completed", progress := 100 })) 2
        (fun s => { s with status := "completed", progress := 100 })) 3
      (fun s => { s with status := "active", progress := 75 })
  else if currentStatus = "completed" then
    stages.map (fun s => { s with status := "completed", progress := 100 })
  else if currentStatus = "failed" then
    setStageAt stages 1 (fun s => { s with status := "error" })
  else if currentStatus = "cancelled" then
    match stages with
    | [] => []
    | upload :: rest =>
        upload :: rest.map (fun s =>
          if s.status = "active" then { s with status := "cancelled" }
          else if s.status = "pending" then
            { s with status := "cancelled", progress := 0 }
          else s)
  else
    stages

/-- `calculateOverallProgress` (lines 116–119): sums the progress values with
`reduce` and applies `Math.round` to the quotient by the length.  On the
empty list the JavaScript quotient is `NaN`; the theorems below therefore
only speak about non-empty stage lists. -/
def calculateOverallProgress (stages : List ProcessingStage) : ℤ :=
  let totalProgress : Nat := stages.foldl (fun sum stage => sum + stage.progress) 0
  round ((totalProgress : ℚ) / (stages.length : ℚ))

end ProcessingStages

/-! ## Shared API types

The `JobResult`, `CancelResponse` and valve-size interfaces are duplicated
verbatim across `src/unnamed/part_002`, `part_005`, `part_006` and
`src/src/app/page.tsx`; they are modelled once here.  Optional
TypeScript fields (`completed_at?`, `detected_pdf_url?`, `result?`,
`error?`) become `Option`. -/

/-- One entry of `result.valve_sizes`. -/
structure ValveSizeEntry where
  size_inches : String
  valve_name : String
  count : Nat
deriving Repr, DecidableEq

/-- The `valve_counts` record of the result payload. -/
structure ValveCounts where
  total_detections : Nat
  ball_valve_vb : Nat
  check_valve_vc : Nat
  gate_valve_vg : Nat
  globe_valve_vgl : Nat
  pcv : Nat
  tcv : Nat
  bdv : Nat
  sdv : Nat
  fcv : Nat
  psv : Nat
  lcv : Nat
deriving Repr, DecidableEq

/-- The `result` payload of a job, present only on success. -/
structure ResultPayload where
  status : String
  filename : String
  detected_pdf_url : String
  valve_counts : ValveCounts
  valve_sizes : List ValveSizeEntry
  processing_info : String
deriving Repr, DecidableEq

/-- The `JobResult` interface: the backend job record as fetched by
`GET /jobs/(job_id)`.  The `status` field is a string at runtime (the
TypeScript `JobStatus` enum is a string enum). -/
structure JobResult where
  job_id : String
  status : String
  created_at : String
  completed_at : Option String := none
  detected_pdf_url : Option String := none
  result : Option ResultPayload := none
  error : Option String := none
deriving Repr, DecidableEq

/-- The `CancelResponse` interface of `src/unnamed/part_006` (lines 78–83). -/
structure CancelResponse where
  job_id : String
  message : String
  previous_status : String
  cancelled_at : String
deriving Repr, DecidableEq

/-- `Response.ok` of the Fetch API: status in the range 200–299. -/
def resOk (status : Nat) : Bool := decide (200 ≤ status ∧ status < 300)

/-- `String.prototype.includes` of JavaScript, on character lists:
`listIncludes pat l` is true when `pat` occurs contiguously in `l`. -/
def listIncludes (pat : List Char) : List Char → Bool
  | [] => pat.isEmpty
  | c :: rest => pat.isPrefixOf (c :: rest) || listIncludes pat rest

/-- `s.includes(pat)` of JavaScript. -/
def jsIncludes (s pat : String) : Bool := listIncludes pat.data s.data

namespace JobPage

/-!  The job-processing page with cancellation support,
`src/unnamed/part_006`. -/

/-- The error message thrown by the SWR `fetcher` (lines 89–94) on a
non-2xx response: `HTTP <status>: <statusText>`. -/
def httpErrorMessage (status : Nat) (statusText : String) : String :=
  "HTTP " ++ toString status ++ ": " ++ statusText

/-- The SWR `fetcher` (lines 89–94): returns the parsed body on a 2xx
response, otherwise throws the `HTTP <status>: <statusText>` error. -/
def fetcher (status : Nat) (statusText : String) (body : JobResult) :
    Except String JobResult :=
  if resOk status then Except.ok body
  else Except.error (httpErrorMessage status statusText)

/-- The `refreshInterval` callback of `useJobStatus` (lines 97–124):
returns 0 (stop polling) when the fetched job is completed, failed or
cancelled, otherwise the configured interval (2000 ms by default).
`data` is `none` while no fetch has succeeded yet (`data?.status`
is then `undefined` and every comparison is false). -/
def refreshInterval (data : Option JobResult) (interval : Nat) : Nat :=
  match data with
  | some job =>
      if job.status = "completed" || job.status = "failed" ||
          job.status = "cancelled" then 0
      else interval
  | none => interval

/-- `cancelJob` (lines 127–138): one POST to `/jobs/<id>/cancel`.  On a
non-2xx response it throws `errorData.detail || "Cancel failed: " +
statusText`; the JavaScript `||` falls through to the generic message both
when `detail` is absent and when it is the empty string (falsy). -/
def cancelJob (status : Nat) (statusText : String) (detail : Option String)
    (body : CancelResponse) : Except String CancelResponse :=
  if resOk status then Except.ok body
  else
    Except.error
      (match detail with
       | some d => if d = "" then "Cancel failed: " ++ statusText else d
       | none => "Cancel failed: " ++ statusText)

/-- The cancellable status set of `isJobCancellable` (lines 155–159). -/
def cancellableStatuses : List String :=
  ["pending", "processing", "pdf_processed", "counting"]

/-- `isJobCancellable` (lines 155–159): false when there is no job,
otherwise membership of the status in the cancellable set. -/
def isJobCancellable (job : Option JobResult) : Bool :=
  match job with
  | none => false
  | some job => cancellableStatuses.contains job.status

/-- The externally observable outcome of one `handleCancelJob` call:
whether the cancel POST was sent, the `cancelError` state afterwards, and
whether the job record was re-fetched (the only way the displayed job
state can change). -/
structure CancelAttempt where
  requestSent : Bool
  cancelError : Option String
  refetched : Bool
deriving Repr, DecidableEq

/-- `handleCancelJob` (lines 214–230): returns immediately when there is
no job or `isJobCancellable` is false (no network call); otherwise issues
the cancel POST, and on failure stores the error message in `cancelError`
without re-fetching (the displayed job state is left unchanged and the
request is not retried). -/
def handleCancelJob (job : Option JobResult) (status : Nat)
    (statusText : String) (detail : Option String) (body : CancelResponse) :
    CancelAttempt :=
  if job.isNone || !(isJobCancellable job) then
    { requestSent := false, cancelError := none, refetched := false }
  else
    match cancelJob status statusText detail body with
    | Except.ok _ =>
        { requestSent := true, cancelError := none, refetched := true }
    | Except.error msg =>
        { requestSent := true, cancelError := some msg, refetched := false }

/-- The error alert of `JobProcessingPage` (lines 254–285): a message
containing "404" is replaced by the job-not-found text, every other fetch
error is prefixed with "Failed to load job status: ". -/
def displayedJobError (jobId : String) (errMessage : String) : String :=
  if jsIncludes errMessage "404" then
    "Job with ID \"" ++ jobId ++
      "\" was not found. Please check the job ID and try again."
  else
    "Failed to load job status: " ++ errMessage

end JobPage

namespace JobPageV1

/-!  The older job-processing page, `src/unnamed/part_005`.  Its
`JobStatus` enum omits `cancelled`, its stage mapping has no `cancelled`
branch, and its polling stop condition only checks completed and
failed. -/

/-- The `refreshInterval` callback of `useJobStatus` in
`src/unnamed/part_005` (lines 92–117): stops polling only for completed
and failed; for a cancelled job it keeps the 2000 ms interval. -/
def refreshInterval (data : Option JobResult) (interval : Nat) : Nat :=
  match data with
  | some job =>
      if job.status = "completed" || job.status = "failed" then 0
      else interval
  | none => interval

/-- `getProcessingStages` of `src/unnamed/part_005` (lines 148–218):
identical to the `ProcessingStages.tsx` version (same stage array, same
`switch`) except that it has no `cancelled` branch. -/
def getProcessingStages (currentStatus : String) :
    List ProcessingStages.ProcessingStage :=
  let stages := ProcessingStages.initialStages
  if currentStatus = "pending" then
    ProcessingStages.setStageAt stages 1
      (fun s => { s with status := "active", progress := 25 })
  else if currentStatus = "processing" then
    ProcessingStages.setStageAt stages 1
      (fun s => { s with status := "active", progress := 75 })
  else if currentStatus = "pdf_processed" then
    ProcessingStages.setStageAt (ProcessingStages.setStageAt stages 1
        (fun s => { s with status := "completed", progress := 100 })) 2
      (fun s => { s with status := "active", progress := 50 })
  else if currentStatus = "counting" then
    ProcessingStages.setStageAt (ProcessingStages.setStageAt
        (ProcessingStages.setStageAt stages 1
          (fun s => { s with status := "completed", progress := 100 })) 2
        (fun s => { s with status := "completed", progress := 100 })) 3
      (fun s => { s with status := "active", progress := 75 })
  else if currentStatus = "completed" then
    stages.map (fun s => { s with status := "completed", progress := 100 })
  else if currentStatus = "failed" then
    ProcessingStages.setStageAt stages 1 (fun s => { s with status := "error" })
  else
    stages

end JobPageV1

namespace HomeV1

/-!  The single-page variant, `src/src/app/page.tsx`. -/

/-- The `useJobStatus` hook of `src/src/app/page.tsx` (lines 81–96) passes
a plain number as the SWR `refreshInterval` option, so the effective
polling interval never depends on the fetched job: polling never stops on
its own. -/
def refreshInterval (_data : Option JobResult) (interval : Nat) : Nat :=
  interval

end HomeV1

namespace DownloadsSection

/-!  CSV generation of `downloadValveSizeReport`, `src/unnamed/part_002`
(lines 71–96); the identical copy lives in `src/unnamed/part_005`
(lines 120–145). -/

/-- The `headers` array (line 72). -/
def headers : List String := ["size_inches", "valve_name", "count"]

/-- The `csvRows` array (lines 73–80): `headers.join(",")` followed by,
for each valve-size entry, the three field values joined by commas.  No
quoting or escaping is applied to any field. -/
def csvRows (valveSizes : List ValveSizeEntry) : List String :=
  String.intercalate "," headers ::
    valveSizes.map (fun valve =>
      String.intercalate ","
        [valve.size_inches, valve.valve_name, toString valve.count])

/-- `csvContent` (line 82): the rows joined by a newline. -/
def csvContent (valveSizes : List ValveSizeEntry) : String :=
  String.intercalate "\n" (csvRows valveSizes)

/-- The download attribute set on the generated link (line 89). -/
def reportFileName (jobId : String) : String :=
  "valve_size_report_" ++ jobId ++ ".csv"

end DownloadsSection

/-- The deterministic status-to-stage table of §4.1 of the specification
(claim C3), written from the words of the spec: for each of the six
non-cancelled statuses, the (id, display status, progress) triple of the
four stages upload, processing, detection, counting.  For `failed` the
spec leaves the processing-stage progress "(unchanged)", i.e. at its
baseline value 0 of the freshly built stage array. -/
def specStatusStageTable (status : String) :
    Option (List (String × String × Nat)) :=
  if status = "pending" then
    some [("upload", "completed", 100), ("processing", "active", 25),
          ("detection", "pending", 0), ("counting", "pending", 0)]
  else if status = "processing" then
    some [("upload", "completed", 100), ("processing", "active", 75),
          ("detection", "pending", 0), ("counting", "pending", 0)]
  else if status = "pdf_processed" then
    some [("upload", "completed", 100), ("processing", "completed", 100),
          ("detection", "active", 50), ("counting", "pending", 0)]
  else if status = "counting" then
    some [("upload", "completed", 100), ("processing", "completed", 100),
          ("detection", "completed", 100), ("counting", "active", 75)]
  else if status = "completed" then
    some [("upload", "completed", 100), ("processing", "completed", 100),
          ("detection", "completed", 100), ("counting", "completed", 100)]
  else if status = "failed" then
    some [("upload", "completed", 100), ("processing", "error", 0),
          ("detection", "pending", 0), ("counting", "pending", 0)]
  else
    none

/-! ## Sample values used by witness theorems -/

/-- A job record in the cancelled state. -/
def sampleCancelledJob : JobResult :=
  { job_id := "job-1", status := "cancelled",
    created_at := "2024-01-01T00:00:00Z" }

/-- A job record in the completed state. -/
def sampleCompletedJob : JobResult :=
  { job_id := "job-2", status := "completed",
    created_at := "2024-01-01T00:00:00Z" }

/-- A job record in the processing state. -/
def sampleProcessingJob : JobResult :=
  { job_id := "job-3", status := "processing",
    created_at := "2024-01-01T00:00:00Z" }

/-- A cancel-endpoint response body. -/
def sampleCancelBody : CancelResponse :=
  { job_id := "job-3", message := "cancelled", previous_status := "processing",
    cancelled_at := "2024-01-01T00:05:00Z" }

/-! ## Helper lemmas -/

theorem listIncludes_nil_pat (l : List Char) : listIncludes [] l = true := by
  induction l with
  | nil => rfl
  | cons c rest ih => simp [listIncludes, List.isPrefixOf]

theorem listIncludes_append_right (pat a r : List Char)
    (h : listIncludes pat a = true) : listIncludes pat (a ++ r) = true := by
  induction a with
  | nil =>
      have hp : pat = [] := by
        simpa [listIncludes, List.isEmpty_iff] using h
      subst hp
      simpa using listIncludes_nil_pat r
  | cons c rest ih =>
      simp only [List.cons_append, listIncludes, Bool.or_eq_true] at h ⊢
      rcases h with h | h
      · left
        rw [ List.isPrefixOf_iff_prefix] at h ⊢
        exact h.trans ( List.prefix_append _ _)
      · right
        exact ih h

theorem jsIncludes_http404 (statusText : String) :
    jsIncludes (JobPage.httpErrorMessage 404 statusText) "404" = true := by
  unfold jsIncludes JobPage.httpErrorMessage
  rw [String.data_append]
  apply listIncludes_append_right
  decide

theorem foldl_progress_le (l : List ProcessingStages.ProcessingStage) :
    ∀ a : Nat, (∀ st ∈ l, st.progress ≤ 100) →
      l.foldl (fun sum stage => sum + stage.progress) a ≤ a + 100 * l.length := by
  induction l with
  | nil => intro a _; simp
  | cons st rest ih =>
      intro a h
      simp only [List.foldl_cons, List.length_cons]
      have h1 : st.progress ≤ 100 := h st (by simp)
      have h2 := ih (a + st.progress) (fun x hx => h x (by simp [hx]))
      omega

theorem calculateOverallProgress_bounds
    (stages : List ProcessingStages.ProcessingStage)
    (h : ∀ st ∈ stages, st.progress ≤ 100) :
    0 ≤ ProcessingStages.calculateOverallProgress stages ∧
      ProcessingStages.calculateOverallProgress stages ≤ 100 := by
  unfold ProcessingStages.calculateOverallProgress
  have ht : stages.foldl (fun sum stage => sum + stage.progress) 0 ≤
      100 * stages.length := by
    simpa using foldl_progress_le stages 0 h
  have hnn : (0 : ℚ) ≤
      ((stages.foldl (fun sum stage => sum + stage.progress) 0 : Nat) : ℚ) /
        (stages.length : ℚ) := by positivity
  have hub : ((stages.foldl (fun sum stage => sum + stage.progress) 0 : Nat) : ℚ) /
      (stages.length : ℚ) ≤ 100 := by
    rcases Nat.eq_zero_or_pos stages.length with hl | hl
    · have hnil : stages = [] := List.length_eq_zero.mp hl
      subst hnil
      norm_num
    · rw [div_le_iff₀ (by exact_mod_cast hl)]
      calc ((stages.foldl (fun sum stage => sum + stage.progress) 0 : Nat) : ℚ)
          ≤ ((100 * stages.length : Nat) : ℚ) := by exact_mod_cast ht
        _ = 100 * (stages.length : ℚ) := by push_cast; ring
  constructor
  · rw [round_eq]
    apply Int.le_floor.mpr
    push_cast
    linarith
  · rw [round_eq]
    have hlt : (⌊((stages.foldl (fun sum stage => sum + stage.progress) 0 : Nat) : ℚ) /
        (stages.length : ℚ) + 1 / 2⌋ : ℤ) < 101 := by
      apply Int.floor_lt.mpr
      push_cast
      linarith
    omega

/-! ## Claim theorems -/

/-- C1, counterexample: `getProcessingStages` is pure in the current
status, so mapping `cancelled` yields the processing stage with progress
0, not with its progress held at the value it had while active (75 while
the job status was `processing`). -/
theorem cancelledDoesNotHoldActiveProgress :
    ((ProcessingStages.getProcessingStages "cancelled").get? 1).map
        (fun s => (s.status, s.progress)) = some ("cancelled", 0) ∧
    ((ProcessingStages.getProcessingStages "processing").get? 1).map
        (fun s => (s.status, s.progress)) = some ("active", 75) ∧
    (0 : Nat) ≠ 75 := by
  refine ⟨by decide, by decide, by decide⟩

/-- C1, amended: `getProcessingStages "cancelled"` rebuilds the stages
from the fixed baseline, so the upload stage stays completed/100 and the
processing, detection and counting stages all become cancelled with
progress 0; no progress value from an earlier status survives, because
within the call no stage is ever `active` when the cancelled branch
runs. -/
theorem cancelledStagesMapping :
    ProcessingStages.getProcessingStages "cancelled" =
      [ { id := "upload", title := "PDF Upload",
          description := "File uploaded and validated successfully",
          status := "completed", progress := 100 },
        { id := "processing", title := "PDF Processing",
          description := "Analyzing PDF structure and extracting pages",
          status := "cancelled", progress := 0 },
        { id := "detection", title := "Valve Detection",
          description := "AI models detecting and classifying valves",
          status := "cancelled", progress := 0 },
        { id := "counting", title := "Counting & Analysis",
          description := "Counting valves by type and generating reports",
          status := "cancelled", progress := 0 } ] := by
  decide

/-- C3: for each of the six non-cancelled statuses, both copies of
`getProcessingStages` (in `ProcessingStages.tsx` and in
`src/unnamed/part_005`) return exactly the four stages of the
specification table, as (id, display status, progress) triples. -/
theorem statusStageTableFaithful :
    ∀ (status : String) (tbl : List (String × String × Nat)),
      specStatusStageTable status = some tbl →
      (ProcessingStages.getProcessingStages status).map
          (fun s => (s.id, s.status, s.progress)) = tbl ∧
      (JobPageV1.getProcessingStages status).map
          (fun s => (s.id, s.status, s.progress)) = tbl := by
  intro status tbl h
  unfold specStatusStageTable at h
  split_ifs at h with h1 h2 h3 h4 h5 h6
  · subst h1; rw [Option.some.injEq] at h; subst h; exact ⟨by decide, by decide⟩
  · subst h2; rw [Option.some.injEq] at h; subst h; exact ⟨by decide, by decide⟩
  · subst h3; rw [Option.some.injEq] at h; subst h; exact ⟨by decide, by decide⟩
  · subst h4; rw [Option.some.injEq] at h; subst h; exact ⟨by decide, by decide⟩
  · subst h5; rw [Option.some.injEq] at h; subst h; exact ⟨by decide, by decide⟩
  · subst h6; rw [Option.some.injEq] at h; subst h; exact ⟨by decide, by decide⟩

/-- C3 witness: the table instance for status `pending`. -/
theorem statusStageTableFaithful_witness :
    (ProcessingStages.getProcessingStages "pending").map
        (fun s => (s.id, s.status, s.progress)) =
      [("upload", "completed", 100), ("processing", "active", 25),
       ("detection", "pending", 0), ("counting", "pending", 0)] ∧
    (JobPageV1.getProcessingStages "pending").map
        (fun s => (s.id, s.status, s.progress)) =
      [("upload", "completed", 100), ("processing", "active", 25),
       ("detection", "pending", 0), ("counting", "pending", 0)] :=
  statusStageTableFaithful "pending"
    [("upload", "completed", 100), ("processing", "active", 25),
     ("detection", "pending", 0), ("counting", "pending", 0)] (by decide)

/-- C5: on every non-empty stage list, `calculateOverallProgress` is the
half-up rounding of the arithmetic mean of the progress values
(`Math.round` rounds half up on non-negative arguments, as does
the Mathlib `round`); in particular the stages of status `pending` give
round(125/4) = 31 and those of `completed` give 100. -/
theorem overallProgressRoundedMean :
    (∀ stages : List ProcessingStages.ProcessingStage, stages ≠ [] →
      ProcessingStages.calculateOverallProgress stages =
        round ((((stages.map (fun s => s.progress)).sum : Nat) : ℚ) /
          (stages.length : ℚ))) ∧
    ProcessingStages.calculateOverallProgress
        (ProcessingStages.getProcessingStages "pending") = 31 ∧
    ProcessingStages.calculateOverallProgress
        (ProcessingStages.getProcessingStages "completed") = 100 := by
  refine ⟨fun stages _ => ?_, ?_, ?_⟩
  · have hsum : stages.foldl (fun sum stage => sum + stage.progress) 0 =
        (stages.map (fun s => s.progress)).sum := by
      rw [List.sum_eq_foldl, List.foldl_map]
    simp only [ProcessingStages.calculateOverallProgress]
    rw [hsum]
  · have e : (ProcessingStages.getProcessingStages "pending").foldl
        (fun sum stage => sum + stage.progress) 0 = 125 := by decide
    have elen : (ProcessingStages.getProcessingStages "pending").length = 4 := by
      decide
    unfold ProcessingStages.calculateOverallProgress
    rw [e, elen]
    norm_num [round_eq]
  · have e : (ProcessingStages.getProcessingStages "completed").foldl
        (fun sum stage => sum + stage.progress) 0 = 400 := by decide
    have elen : (ProcessingStages.getProcessingStages "completed").length = 4 := by
      decide
    unfold ProcessingStages.calculateOverallProgress
    rw [e, elen]
    norm_num [round_eq]

/-- C5 witness: the rounded-mean identity applied to the concrete
(non-empty) stage list of status `processing`. -/
theorem overallProgressRoundedMean_witness :
    ProcessingStages.getProcessingStages "processing" ≠ [] ∧
    ProcessingStages.calculateOverallProgress
        (ProcessingStages.getProcessingStages "processing") =
      round (((((ProcessingStages.getProcessingStages "processing").map
            (fun s => s.progress)).sum : Nat) : ℚ) /
        ((ProcessingStages.getProcessingStages "processing").length : ℚ)) :=
  ⟨by decide, overallProgressRoundedMean.1 _ (by decide)⟩


set_option maxHeartbeats 1600000 in
/-- C9: for every input status string, including values outside the
seven-value enumeration (which take the default branch of the switch),
`getProcessingStages` returns exactly four stages, the first of which is
the upload stage with display status completed and progress 100; every
progress value is at most 100, and the overall progress lies between 0
and 100. -/
theorem stageListInvariants :
    ∀ currentStatus : String,
      (ProcessingStages.getProcessingStages currentStatus).length = 4 ∧
      (ProcessingStages.getProcessingStages currentStatus).get? 0 =
        some { id := "upload", title := "PDF Upload",
               description := "File uploaded and validated successfully",
               status := "completed", progress := 100 } ∧
      (∀ stage ∈ ProcessingStages.getProcessingStages currentStatus,
        stage.progress ≤ 100) ∧
      0 ≤ ProcessingStages.calculateOverallProgress
          (ProcessingStages.getProcessingStages currentStatus) ∧
      ProcessingStages.calculateOverallProgress
          (ProcessingStages.getProcessingStages currentStatus) ≤ 100 := by
  intro s
  have hshape : (ProcessingStages.getProcessingStages s).length = 4 ∧
      (ProcessingStages.getProcessingStages s).get? 0 =
        some { id := "upload", title := "PDF Upload",
               description := "File uploaded and validated successfully",
               status := "completed", progress := 100 } ∧
      (∀ stage ∈ ProcessingStages.getProcessingStages s,
        stage.progress ≤ 100) := by
    unfold ProcessingStages.getProcessingStages
    split_ifs <;> exact by decide
  obtain ⟨h1, h2, h3⟩ := hshape
  have hb := calculateOverallProgress_bounds _ h3
  exact ⟨h1, h2, h3, hb.1, hb.2⟩

/-- C9 witness: the invariants instantiated at a status outside the
enumeration (default branch). -/
theorem stageListInvariants_witness :
    (ProcessingStages.getProcessingStages "bogus").length = 4 ∧
    ({ id := "upload", title := "PDF Upload",
       description := "File uploaded and validated successfully",
       status := "completed",
       progress := 100 } : ProcessingStages.ProcessingStage).progress ≤ 100 ∧
    0 ≤ ProcessingStages.calculateOverallProgress
        (ProcessingStages.getProcessingStages "bogus") :=
  ⟨(stageListInvariants "bogus").1,
   (stageListInvariants "bogus").2.2.1 _ (by decide),
   (stageListInvariants "bogus").2.2.2.1⟩

/-- C2 (code bug in two hook variants): the `useJobStatus` of
`src/unnamed/part_006` stops polling (interval 0) exactly on the terminal
set completed/failed/cancelled; but the variant in `src/unnamed/part_005`
keeps the 2000 ms interval for a cancelled job, and the variant in
`src/src/app/page.tsx` uses a constant interval that never stops for any
status. -/
theorem pollingStopConditionPerVariant :
    (∀ job : JobResult,
        JobPage.refreshInterval (some job) 2000 = 0 ↔
          job.status ∈ ["completed", "failed", "cancelled"]) ∧
    (∀ job : JobResult, job.status = "cancelled" →
        JobPageV1.refreshInterval (some job) 2000 = 2000) ∧
    (∀ job : JobResult, HomeV1.refreshInterval (some job) 2000 = 2000) := by
  refine ⟨fun job => ?_, fun job h => ?_, fun job => rfl⟩
  · simp only [JobPage.refreshInterval]
    split_ifs with hc
    · simp only [Bool.or_eq_true, decide_eq_true_eq] at hc
      simp only [List.mem_cons, List.not_mem_nil, or_false, true_iff]
      tauto
    · simp only [Bool.or_eq_true, decide_eq_true_eq, not_or] at hc
      constructor
      · intro h0; exact absurd h0 (by decide)
      · intro hmem
        simp only [List.mem_cons, List.not_mem_nil, or_false] at hmem
        tauto
  · have hc : (job.status = "completed" || job.status = "failed") = false := by
      rw [h]; rfl
    simp [JobPageV1.refreshInterval, hc]

/-- C2 witness: on a cancelled job, the part_006 hook stops and the
part_005 hook keeps polling at 2000 ms. -/
theorem pollingStopConditionPerVariant_witness :
    JobPage.refreshInterval (some sampleCancelledJob) 2000 = 0 ∧
    JobPageV1.refreshInterval (some sampleCancelledJob) 2000 = 2000 ∧
    HomeV1.refreshInterval (some sampleCompletedJob) 2000 = 2000 :=
  ⟨(pollingStopConditionPerVariant.1 sampleCancelledJob).mpr (by decide),
   pollingStopConditionPerVariant.2.1 sampleCancelledJob rfl,
   pollingStopConditionPerVariant.2.2 sampleCompletedJob⟩

/-- C6: `isJobCancellable` is false exactly for statuses outside the
cancellable set (pending, processing, pdf_processed, counting), and for
such a job `handleCancelJob` returns without issuing the cancel POST. -/
theorem cancelGuardRequiresCancellable :
    ∀ (job : JobResult) (status : Nat) (statusText : String)
      (detail : Option String) (body : CancelResponse),
      (JobPage.isJobCancellable (some job) = false ↔
        job.status ∉ JobPage.cancellableStatuses) ∧
      (job.status ∉ JobPage.cancellableStatuses →
        JobPage.handleCancelJob (some job) status statusText detail body =
          { requestSent := false, cancelError := none, refetched := false }) := by
  intro job status statusText detail body
  have h1 : JobPage.isJobCancellable (some job) =
      JobPage.cancellableStatuses.contains job.status := rfl
  have hiff : JobPage.isJobCancellable (some job) = false ↔
      job.status ∉ JobPage.cancellableStatuses := by
    constructor
    · intro hf hmem
      have hT : JobPage.cancellableStatuses.contains job.status = true :=
        List.elem_iff.mpr hmem
      rw [h1, hT] at hf
      exact Bool.noConfusion hf
    · intro hmem
      rw [h1]
      cases hC : JobPage.cancellableStatuses.contains job.status with
      | false => rfl
      | true => exact absurd (List.elem_iff.mp hC) hmem
  exact ⟨hiff, fun hmem => by
    have hfalse : JobPage.isJobCancellable (some job) = false := hiff.mpr hmem
    unfold JobPage.handleCancelJob
    rw [hfalse]
    simp⟩

/-- C6 witness: a completed job is rejected client-side, no cancel POST
is issued. -/
theorem cancelGuardRequiresCancellable_witness :
    JobPage.handleCancelJob (some sampleCompletedJob) 200 "OK" none
        sampleCancelBody =
      { requestSent := false, cancelError := none, refetched := false } :=
  (cancelGuardRequiresCancellable sampleCompletedJob 200 "OK" none
    sampleCancelBody).2 (by decide)

/-- C7, counterexample: a non-404 response whose status text happens to
contain the substring "404" is routed to the job-not-found message, not
to the generic "Failed to load job status" message, because the page
branches on `error.message.includes("404")`. -/
theorem jobFetchErrorDisplay_counterexample :
    JobPage.displayedJobError "job-1" (JobPage.httpErrorMessage 500 "Gateway 404") =
      "Job with ID \"job-1\" was not found. Please check the job ID and try again." ∧
    JobPage.displayedJobError "job-1" (JobPage.httpErrorMessage 500 "Gateway 404") ≠
      "Failed to load job status: " ++ JobPage.httpErrorMessage 500 "Gateway 404" := by
  refine ⟨by decide, by decide⟩

/-- C7, amended: on a non-2xx response the fetcher throws
`HTTP <status>: <statusText>`; for status 404 the displayed message
contains the job id and the words "not found", and for any other non-2xx
response whose message does not contain the substring "404" the displayed
message is the generic `Failed to load job status: HTTP <status>:
<statusText>`. -/
theorem jobFetchErrorDisplay :
    ∀ (jobId statusText : String) (status : Nat) (body : JobResult),
      resOk status = false →
      (JobPage.fetcher status statusText body =
          Except.error (JobPage.httpErrorMessage status statusText)) ∧
      (status = 404 →
        (∃ pre post,
            (JobPage.displayedJobError jobId
                (JobPage.httpErrorMessage status statusText)).data =
              pre ++ jobId.data ++ post) ∧
        (∃ pre post,
            (JobPage.displayedJobError jobId
                (JobPage.httpErrorMessage status statusText)).data =
              pre ++ ("not found" : String).data ++ post)) ∧
      (jsIncludes (JobPage.httpErrorMessage status statusText) "404" = false →
        JobPage.displayedJobError jobId
            (JobPage.httpErrorMessage status statusText) =
          "Failed to load job status: " ++
            JobPage.httpErrorMessage status statusText) := by
  intro jobId statusText status body hok
  refine ⟨?_, ?_, ?_⟩
  · unfold JobPage.fetcher
    rw [hok]
    simp
  · intro h404
    subst h404
    have hinc := jsIncludes_http404 statusText
    unfold JobPage.displayedJobError
    rw [hinc]
    simp only [if_true]
    constructor
    · refine ⟨("Job with ID \"" : String).data,
        ("\" was not found. Please check the job ID and try again." : String).data,
        ?_⟩
      simp [String.data_append]
    · refine ⟨("Job with ID \"" : String).data ++ jobId.data ++
          ("\" was " : String).data,
        (". Please check the job ID and try again." : String).data, ?_⟩
      simp only [String.data_append, List.append_assoc]
      congr 1
  · intro hninc
    unfold JobPage.displayedJobError
    rw [hninc]
    simp

/-- C7 witness: a 404 response with the standard status text. -/
theorem jobFetchErrorDisplay_witness :
    JobPage.fetcher 404 "Not Found" sampleProcessingJob =
      Except.error (JobPage.httpErrorMessage 404 "Not Found") ∧
    (∃ pre post,
        (JobPage.displayedJobError "job-1"
            (JobPage.httpErrorMessage 404 "Not Found")).data =
          pre ++ ("job-1" : String).data ++ post) :=
  have h := jobFetchErrorDisplay "job-1" "Not Found" 404 sampleProcessingJob
    (by decide)
  ⟨h.1, (h.2.1 rfl).1⟩

/-- C8, counterexample: a response body whose `detail` field is present
but equal to the empty string is not surfaced verbatim; the JavaScript
`||` treats it as falsy and the thrown message is the generic fallback. -/
theorem cancelDetailEmptyFallsBack :
    JobPage.cancelJob 400 "Bad Request" (some "") sampleCancelBody =
      Except.error ("Cancel failed: Bad Request") ∧
    ("Cancel failed: Bad Request" : String) ≠ "" :=
  ⟨rfl, by decide⟩

/-- C8, amended: on a non-2xx cancel response, the thrown message is the
response body `detail` field when present and non-empty, otherwise
`Cancel failed: <statusText>`; in either case `handleCancelJob` stores
exactly that message as the cancel error and does not re-fetch the job
(the displayed job state is unchanged, no retry). -/
theorem cancelFailureSurfaced :
    ∀ (job : JobResult) (status : Nat) (statusText : String)
      (detail : Option String) (body : CancelResponse),
      resOk status = false →
      JobPage.isJobCancellable (some job) = true →
      ((∀ d, detail = some d → d ≠ "" →
          JobPage.cancelJob status statusText detail body = Except.error d ∧
          JobPage.handleCancelJob (some job) status statusText detail body =
            { requestSent := true, cancelError := some d, refetched := false }) ∧
       (detail = none ∨ detail = some "" →
          JobPage.cancelJob status statusText detail body =
            Except.error ("Cancel failed: " ++ statusText) ∧
          JobPage.handleCancelJob (some job) status statusText detail body =
            { requestSent := true,
              cancelError := some ("Cancel failed: " ++ statusText),
              refetched := false })) := by
  intro job status statusText detail body hok hcanc
  constructor
  · intro d hd hne
    subst hd
    have hc : JobPage.cancelJob status statusText (some d) body =
        Except.error d := by
      simp [JobPage.cancelJob, hok, hne]
    exact ⟨hc, by simp [JobPage.handleCancelJob, hcanc, hc]⟩
  · intro hd
    have hc : JobPage.cancelJob status statusText detail body =
        Except.error ("Cancel failed: " ++ statusText) := by
      rcases hd with hd | hd <;> subst hd <;> simp [JobPage.cancelJob, hok]
    exact ⟨hc, by simp [JobPage.handleCancelJob, hcanc, hc]⟩

/-- C8 witness: a processing job, a 500 response with a non-empty detail
message. -/
theorem cancelFailureSurfaced_witness :
    JobPage.cancelJob 500 "Internal Server Error"
        (some "Job already finished") sampleCancelBody =
      Except.error "Job already finished" ∧
    JobPage.handleCancelJob (some sampleProcessingJob) 500
        "Internal Server Error" (some "Job already finished")
        sampleCancelBody =
      { requestSent := true, cancelError := some "Job already finished",
        refetched := false } :=
  (cancelFailureSurfaced sampleProcessingJob 500 "Internal Server Error"
      (some "Job already finished") sampleCancelBody (by decide)
      (by decide)).1
    "Job already finished" rfl (by decide)

/-- C4: the CSV generated by `downloadValveSizeReport` is the header row
followed by one comma-joined row per valve-size entry, rows joined by a
newline; on the single entry (2", Gate, 3) it is exactly
`size_inches,valve_name,count\n2",Gate,3`, and the download is named
`valve_size_report_<job_id>.csv`. -/
theorem valveSizeCsvContent :
    DownloadsSection.csvContent
        [{ size_inches := "2\"", valve_name := "Gate", count := 3 }] =
      "size_inches,valve_name,count\n2\",Gate,3" ∧
    (∀ valveSizes : List ValveSizeEntry,
      DownloadsSection.csvContent valveSizes =
        String.intercalate "\n"
          ("size_inches,valve_name,count" ::
            valveSizes.map (fun v =>
              v.size_inches ++ "," ++ v.valve_name ++ "," ++
                toString v.count))) ∧
    (∀ jobId : String,
      DownloadsSection.reportFileName jobId =
        "valve_size_report_" ++ jobId ++ ".csv") := by
  refine ⟨by decide, fun valveSizes => ?_, fun jobId => rfl⟩
  rfl

/-- C10: `downloadValveSizeReport` applies no quoting or escaping: an
entry whose `size_inches` contains a comma produces a row with four
comma-separated fields instead of three, so the CSV no longer has one
three-column row per entry. -/
theorem csvNoEscaping :
    DownloadsSection.csvRows
        [{ size_inches := "1,5", valve_name := "Gate", count := 2 }] =
      ["size_inches,valve_name,count", "1,5,Gate,2"] ∧
    ("size_inches,valve_name,count" : String).data.count ',' + 1 = 3 ∧
    ("1,5,Gate,2" : String).data.count ',' + 1 = 4 ∧ 3 < 4 := by
  refine ⟨by decide, by decide, by decide, by decide⟩
